import Mathlib

/-!
Shallow embedding of the metaculus-forecasting-bot repository (Python) used to
check the natural-language specification against the code.

Python values are modelled by the inductive type `PyVal`; Python dictionaries
appearing in the code (JSON-like payloads produced by the platform API and by
LLM completions) are modelled as association lists with string keys, which is
the shape every dictionary handled by the claims has.  Exceptions are modelled
explicitly with `Except` / `Option`; a caught-and-reraised exception keeps only
the information the Python code keeps.
-/

namespace MetaculusBot

/-- A Python value, restricted to the shapes flowing through the code under
verification: `None`, booleans, integers, floats (modelled as exact rationals),
strings, lists, and dictionaries with string keys. -/
inductive PyVal where
  | vNone : PyVal
  | vBool : Bool → PyVal
  | vInt : Int → PyVal
  | vFloat : Rat → PyVal
  | vStr : String → PyVal
  | vList : List PyVal → PyVal
  | vDict : List (String × PyVal) → PyVal

/-- The kinds of Python exceptions raised by the code paths under
verification.  `missingData` carries the list of missing keys embedded in the
`ValueError` message of `QuestionDetails.__post_init__`; `invalidInput` stands
for the `AssertionError` / `ValueError` the spec's taxonomy calls InvalidInput;
`invalidFormat` for the `ValueError` raised when an LLM payload cannot be
parsed. -/
inductive PyErr where
  | attributeError : PyErr
  | keyError : PyErr
  | typeError : PyErr
  | invalidInput : PyErr
  | invalidFormat : PyErr
  | missingData : List String → PyErr
deriving DecidableEq

/-- Python `d.get(k)` on a dict with string keys: the stored value, or `None`
when the key is absent. -/
def pyGet (es : List (String × PyVal)) (k : String) : PyVal :=
  (List.lookup k es).getD PyVal.vNone

/-- Python `d[k]` on a dict with string keys: the stored value, or a
`KeyError` when the key is absent. -/
def pyIndex (es : List (String × PyVal)) (k : String) : Except PyErr PyVal :=
  match List.lookup k es with
  | some v => Except.ok v
  | none => Except.error PyErr.keyError

/-- Python `k in d` on a dict with string keys. -/
def hasKey (es : List (String × PyVal)) (k : String) : Bool :=
  (List.lookup k es).isSome

/-- Python dict-comprehension accumulation: inserting a binding into a dict
keeps the first occurrence's position and overwrites its value. -/
def dictInsert {κ β : Type} [DecidableEq κ] : List (κ × β) → κ → β → List (κ × β)
  | [], k, v => [(k, v)]
  | (k', v') :: rest, k, v =>
      if k' = k then (k, v) :: rest else (k', v') :: dictInsert rest k v

/-- One decimal digit of a character, if any. -/
def digitVal? (c : Char) : Option Nat :=
  if c.isDigit then some (c.toNat - 48) else none

/-- Parse a non-empty string of decimal digits as a natural number. -/
def parseDigits : List Char → Option Nat
  | [] => none
  | cs =>
    cs.foldlM (fun acc c => (digitVal? c).map (fun d => acc * 10 + d)) 0

/-- Python `int(s)` on a string: optional surrounding spaces, an optional
sign, then one or more decimal digits; anything else raises `ValueError`
(modelled as `none`). -/
def pyIntOfStr (s : String) : Option Int :=
  let cs := (s.toList.dropWhile (· = ' ')).reverse.dropWhile (· = ' ') |>.reverse
  match cs with
  | [] => none
  | c :: rest =>
    if c = '-' then (parseDigits rest).map (fun n => -(n : Int))
    else if c = '+' then (parseDigits rest).map (fun n => (n : Int))
    else (parseDigits cs).map (fun n => (n : Int))

/-- Python `float(s)` on a string: optional surrounding spaces, an optional
sign, then a decimal literal `digits`, `digits.digits`, `digits.` or
`.digits`; anything else raises `ValueError` (modelled as `none`). -/
def pyFloatOfStr (s : String) : Option Rat :=
  let cs := (s.toList.dropWhile (· = ' ')).reverse.dropWhile (· = ' ') |>.reverse
  let unsigned : List Char → Option Rat := fun ds =>
    let intPart := ds.takeWhile (fun c => c ≠ '.')
    let rest := ds.dropWhile (fun c => c ≠ '.')
    match rest with
    | [] => (parseDigits intPart).map (fun n => (n : Rat))
    | _ :: fracPart =>
      if intPart = [] ∧ fracPart = [] then none
      else
        let ip : Option Nat := if intPart = [] then some 0 else parseDigits intPart
        let fp : Option Nat := if fracPart = [] then some 0 else parseDigits fracPart
        match ip, fp with
        | some i, some f => some ((i : Rat) + (f : Rat) / ((10 : Rat) ^ fracPart.length))
        | _, _ => none
  match cs with
  | [] => none
  | c :: rest =>
    if c = '-' then (unsigned rest).map (fun q => -q)
    else if c = '+' then unsigned rest
    else unsigned cs

/-- Truncation toward zero, as Python `int(float)`. -/
def pyTrunc (q : Rat) : Int :=
  if q < 0 then -(Int.floor (-q)) else Int.floor q

/-- Python `int(x)` on a value: ints pass through, booleans become 0/1,
floats truncate toward zero, strings are parsed; other types raise
(`TypeError`, modelled as `none`). -/
def pyInt : PyVal → Option Int
  | PyVal.vInt n => some n
  | PyVal.vBool b => some (if b then 1 else 0)
  | PyVal.vFloat q => some (pyTrunc q)
  | PyVal.vStr s => pyIntOfStr s
  | _ => none

/-- Python `float(x)` on a value: floats pass through, ints and booleans are
promoted, strings are parsed; other types raise (`TypeError`, modelled as
`none`). -/
def pyFloat : PyVal → Option Rat
  | PyVal.vFloat q => some q
  | PyVal.vInt n => some (n : Rat)
  | PyVal.vBool b => some (if b then 1 else 0)
  | PyVal.vStr s => pyFloatOfStr s
  | _ => none

/-! ### Python string primitives

Strings handled by the text utilities are modelled as `List Char`; Python's
`str.find` / `str.rfind` return `-1` when absent, and slices accept negative
indices counted from the end. -/

/-- The opening-brace character. -/
def braceOpen : Char := Char.ofNat 123

/-- The closing-brace character. -/
def braceClose : Char := Char.ofNat 125

/-- Index of the first occurrence of a character, if any. -/
def findCharAux : List Char → Char → Option Nat
  | [], _ => none
  | a :: rest, c =>
      if a = c then some 0 else (findCharAux rest c).map (· + 1)

/-- Index of the last occurrence of a character, if any. -/
def rfindCharAux : List Char → Char → Option Nat
  | [], _ => none
  | a :: rest, c =>
      match rfindCharAux rest c with
      | some k => some (k + 1)
      | none => if a = c then some 0 else none

/-- Python `s.find(c)` for a single-character needle: first index or `-1`. -/
def pyFindChar (s : List Char) (c : Char) : Int :=
  match findCharAux s c with
  | some k => (k : Int)
  | none => -1

/-- Python `s.rfind(c)` for a single-character needle: last index or `-1`. -/
def pyRfindChar (s : List Char) (c : Char) : Int :=
  match rfindCharAux s c with
  | some k => (k : Int)
  | none => -1

/-- Index of the first occurrence of a substring, if any. -/
def findSubAux : List Char → List Char → Option Nat
  | [], d => if d.isEmpty then some 0 else none
  | s@(_ :: rest), d =>
      if d.isPrefixOf s then some 0 else (findSubAux rest d).map (· + 1)

/-- Python `s.find(sub)`: first index of the substring or `-1`. -/
def pyFindSub (s sub : List Char) : Int :=
  match findSubAux s sub with
  | some k => (k : Int)
  | none => -1

/-- Normalize a (possibly negative) Python slice endpoint against a length. -/
def pySliceIdx (len : Nat) (i : Int) : Nat :=
  if i < 0 then (i + len).toNat else min i.toNat len

/-- Python `s[a:b]` with possibly negative endpoints. -/
def pySlice (s : List Char) (a b : Int) : List Char :=
  (s.take (pySliceIdx s.length b)).drop (pySliceIdx s.length a)

/-- Python `s[a:]` with a non-negative start index. -/
def pySliceFrom (s : List Char) (a : Nat) : List Char := s.drop a

/-! ### src/utils.py -/

/-- `utils.trim_beginning_of_string` (src/utils.py lines 6-14): trim the
beginning of a string until a delimiter substring is found; if the delimiter
is absent (`find` returns `-1`) the string is returned unchanged. -/
def trim_beginning_of_string (input_string delimiter : List Char) : List Char :=
  match findSubAux input_string delimiter with
  | none => input_string
  | some start_index => pySliceFrom input_string start_index

/-- `utils.find_first_and_last_braces` (src/utils.py lines 50-53): index of
the first opening brace and of the last closing brace, `-1` when absent. -/
def find_first_and_last_braces (s : List Char) : Int × Int :=
  (pyFindChar s braceOpen, pyRfindChar s braceClose)

/-- `utils.try_to_find_and_eval_dict` (src/utils.py lines 55-62): slice the
input from the first opening brace through the last closing brace and `eval`
the slice; any evaluation failure is re-raised as a `ValueError`
(InvalidFormat).  `eval` executes arbitrary Python, so it is a parameter
`ev`: `ev t = none` models "eval of `t` raises", `ev t = some v` models "eval
of `t` returns the value `v`". -/
def try_to_find_and_eval_dict (ev : List Char → Option PyVal)
    (input_string : List Char) : Except PyErr PyVal :=
  let ij := find_first_and_last_braces input_string
  let trimmed := pySlice input_string ij.1 (ij.2 + 1)
  match ev trimmed with
  | some v => Except.ok v
  | none => Except.error PyErr.invalidFormat

/-! ### src/data_models/CompletionResponse.py -/

/-- `CompletionResponse` (src/data_models/CompletionResponse.py): wraps the
raw chat-completion JSON payload. -/
structure CompletionResponse where
  response_json : List (String × PyVal)

/-- Python attribute access `v.get(k)`: only dictionaries have a `get`
method; on any other value an `AttributeError` is raised. -/
def pyDotGet (v : PyVal) (k : String) : Except PyErr PyVal :=
  match v with
  | PyVal.vDict es => Except.ok (pyGet es k)
  | _ => Except.error PyErr.attributeError

namespace CompletionResponse

/-- `CompletionResponse.first_choice` (lines 30-37): `choices` looked up with
`.get`; when it is not `None` and non-empty, its first element, else `None`.
`len()` of a non-sized value raises `TypeError`; indexing a dictionary with
the integer `0` raises `KeyError` (the modelled dictionaries have string
keys). -/
def first_choice (r : CompletionResponse) : Except PyErr PyVal :=
  match pyGet r.response_json "choices" with
  | PyVal.vNone => Except.ok PyVal.vNone
  | PyVal.vList xs =>
      match xs with
      | [] => Except.ok PyVal.vNone
      | x :: _ => Except.ok x
  | PyVal.vStr s =>
      if s.length > 0 then Except.ok (PyVal.vStr (s.take 1)) else Except.ok PyVal.vNone
  | PyVal.vDict es =>
      if es.length > 0 then Except.error PyErr.keyError else Except.ok PyVal.vNone
  | _ => Except.error PyErr.typeError

/-- `CompletionResponse.content` (lines 39-44):
`first_choice.get('message').get('content')` under a bare `try`, returning
`None` on any failure. -/
def content (r : CompletionResponse) : PyVal :=
  match (do
      let fc ← first_choice r
      let m ← pyDotGet fc "message"
      pyDotGet m "content") with
  | Except.ok v => v
  | Except.error _ => PyVal.vNone

/-- `CompletionResponse.finish_reason` (lines 46-51):
`first_choice.get('finish_reason')` under a bare `try`. -/
def finish_reason (r : CompletionResponse) : PyVal :=
  match (do
      let fc ← first_choice r
      pyDotGet fc "finish_reason") with
  | Except.ok v => v
  | Except.error _ => PyVal.vNone

/-- `CompletionResponse.prompt_tokens` (lines 53-58):
`response_json.get('usage').get('prompt_tokens')` under a bare `try`. -/
def prompt_tokens (r : CompletionResponse) : PyVal :=
  match pyDotGet (pyGet r.response_json "usage") "prompt_tokens" with
  | Except.ok v => v
  | Except.error _ => PyVal.vNone

/-- `CompletionResponse.completion_tokens` (lines 60-65). -/
def completion_tokens (r : CompletionResponse) : PyVal :=
  match pyDotGet (pyGet r.response_json "usage") "completion_tokens" with
  | Except.ok v => v
  | Except.error _ => PyVal.vNone

/-- `CompletionResponse.total_tokens` (lines 67-72). -/
def total_tokens (r : CompletionResponse) : PyVal :=
  match pyDotGet (pyGet r.response_json "usage") "total_tokens" with
  | Except.ok v => v
  | Except.error _ => PyVal.vNone

end CompletionResponse

/-- Python `str(x)` as used by f-string interpolation of the token counters:
the literal word `None` for the absent value, the decimal rendering for an
integer; the remaining constructors do not occur in a token slot, and are
rendered by a placeholder. -/
def pyStrOfVal : PyVal → String
  | PyVal.vNone => "None"
  | PyVal.vInt n => toString n
  | PyVal.vBool b => if b then "True" else "False"
  | PyVal.vStr s => s
  | _ => "<object>"

/-- `CompletionResponse.tokens_all` (lines 74-76): the f-string
`"<prompt>, <completion>, <total>"`. -/
def CompletionResponse.tokens_all (r : CompletionResponse) : String :=
  pyStrOfVal (CompletionResponse.prompt_tokens r) ++ ", "
    ++ pyStrOfVal (CompletionResponse.completion_tokens r) ++ ", "
    ++ pyStrOfVal (CompletionResponse.total_tokens r)

/-! ### src/data_models/QuestionDetails.py -/

/-- `QuestionDetails` (src/data_models/QuestionDetails.py): wraps the raw
question record. -/
structure QuestionDetails where
  details_dict : List (String × PyVal)

/-- The `required_keys` list of `QuestionDetails.__post_init__` (lines
22-23). -/
def question_details_required_keys : List String :=
  ["id", "title", "resolution_criteria", "fine_print", "description", "publish_time"]

/-- The `missing_keys` comprehension of `QuestionDetails.__post_init__`
(lines 24-25): required keys absent from the record, in declaration order. -/
def questionDetailsMissingKeys (d : List (String × PyVal)) : List String :=
  question_details_required_keys.filter (fun k => !(hasKey d k))

/-- `QuestionDetails.__post_init__` (lines 21-28): constructing from a record
raises a `ValueError` naming the missing required keys when any is absent,
and succeeds otherwise. -/
def mkQuestionDetails (d : List (String × PyVal)) : Except PyErr QuestionDetails :=
  let missing := questionDetailsMissingKeys d
  if missing.isEmpty then Except.ok ⟨d⟩
  else Except.error (PyErr.missingData missing)

/-- `QuestionDetails.id` (lines 30-32): `details_dict.get('id')`. -/
def QuestionDetails.qid (qd : QuestionDetails) : PyVal :=
  pyGet qd.details_dict "id"

/-! ### src/metaculus.py -/

/-- An outbound HTTP side effect of `upload_predictions`: either
`post_question_prediction` (src/metaculus.py lines 25-37) or
`post_question_comment` (lines 11-22), identified by its payload. -/
inductive HttpAction where
  | predict : Int → Rat → HttpAction
  | comment : Int → String → HttpAction
deriving DecidableEq

/-- The posting loop of `upload_predictions` (src/metaculus.py lines 52-60):
for each question id in input order, look the probability up again and post
the prediction, then, when a summaries mapping was supplied, look the summary
up and post it as a comment.  Returns the HTTP actions actually issued, in
order, together with the exception that aborted the loop, if any (a missing
key raises `KeyError` after the actions already issued). -/
def uploadLoop (probabilities_dict : List (Int × Rat))
    (summaries_dict : Option (List (Int × String))) :
    List Int → List HttpAction × Option PyErr
  | [] => ([], none)
  | question_id :: rest =>
      match List.lookup question_id probabilities_dict with
      | none => ([], some PyErr.keyError)
      | some p =>
          match summaries_dict with
          | none =>
              let r := uploadLoop probabilities_dict summaries_dict rest
              (HttpAction.predict question_id p :: r.1, r.2)
          | some sm =>
              match List.lookup question_id sm with
              | none => ([HttpAction.predict question_id p], some PyErr.keyError)
              | some t =>
                  let r := uploadLoop probabilities_dict summaries_dict rest
                  (HttpAction.predict question_id p :: HttpAction.comment question_id t :: r.1,
                   r.2)

/-- `upload_predictions` (src/metaculus.py lines 40-60): first materialize
the probabilities for every id (`KeyError` on a missing id, before any HTTP
request), then assert every probability lies in `[0, 1]` (an
`AssertionError` — the spec's InvalidInput — before any HTTP request), then
run the posting loop.  Returns the HTTP actions issued, in order, and the
exception aborting the run, if any. -/
def upload_predictions (question_ids : List Int)
    (probabilities_dict : List (Int × Rat))
    (summaries_dict : Option (List (Int × String))) :
    List HttpAction × Option PyErr :=
  match question_ids.mapM (fun question_id => List.lookup question_id probabilities_dict) with
  | none => ([], some PyErr.keyError)
  | some forecasts =>
      if forecasts.all (fun forecast => decide (0 ≤ forecast) && decide (forecast ≤ 1)) then
        uploadLoop probabilities_dict summaries_dict question_ids
      else ([], some PyErr.invalidInput)

/-- The per-question HTTP actions `upload_predictions` performs on a fully
valid input, written directly from the specification of its loop: for each id
in input order, the prediction, then (when a summaries mapping was supplied)
the comment. -/
def expectedUploadActions (question_ids : List Int)
    (probabilities_dict : List (Int × Rat))
    (summaries_dict : Option (List (Int × String))) : List HttpAction :=
  question_ids.flatMap (fun question_id =>
    HttpAction.predict question_id ((List.lookup question_id probabilities_dict).getD 0) ::
      (match summaries_dict with
       | none => []
       | some sm => [HttpAction.comment question_id ((List.lookup question_id sm).getD "")]))

/-- The query parameters `list_questions` sends (src/metaculus.py lines
79-90): note the hard-coded `order_by=-activity` ordering and
`forecast_type=binary`.  `tournament_id` is interpolated as the `project`
parameter (`None` when absent). -/
def list_questions_url_qparams (tournament_id : Option Int) (offset count : Int) :
    List (String × PyVal) :=
  [("limit", PyVal.vInt count),
   ("offset", PyVal.vInt offset),
   ("has_group", PyVal.vStr "false"),
   ("order_by", PyVal.vStr "-activity"),
   ("forecast_type", PyVal.vStr "binary"),
   ("project", (tournament_id.map PyVal.vInt).getD PyVal.vNone),
   ("status", PyVal.vStr "open"),
   ("type", PyVal.vStr "forecast"),
   ("include_description", PyVal.vStr "true")]

/-- The parameter names of `def list_questions(tournament_id, offset=0,
count=100)` (src/metaculus.py line 78); the function declares no `**kwargs`. -/
def list_questions_parameter_names : List String :=
  ["tournament_id", "offset", "count"]

/-- The keyword-argument names `VectorStoreManager.update_store` passes to
`list_questions` (src/data_models/VectorStoreManager.py lines 51-56). -/
def update_store_call_keyword_names : List String :=
  ["tournament_id", "order_by", "offset", "count", "status", "forecast_type"]

/-- Python call compatibility: a call with keyword arguments succeeds only if
every keyword names a declared parameter (otherwise `TypeError: got an
unexpected keyword argument`). -/
def pythonKeywordsAccepted (parameters keywords : List String) : Bool :=
  keywords.all (fun k => parameters.contains k)

/-! ### src/data_models/DetailsPreparation.py -/

/-- The `question_ids` argument of `DetailsPreparation.__init__`: either an
iterable of integer ids or some non-iterable value (the only distinction the
`isinstance(question_ids, Iterable)` check makes). -/
inductive PyArg where
  | iterable : List Int → PyArg
  | notIterable : PyArg

/-- The attributes of a `DetailsPreparation` object. -/
structure DetailsPreparationState where
  question_ids : List Int
  question_details_dict : List (Int × QuestionDetails)
  unification_response : Option CompletionResponse
  unified_details : Option PyVal

/-- The side effects of `DetailsPreparation.__init__`: how many per-id HTTP
detail fetches (`get_all_question_details_from_ids`) and how many LLM
(unification) calls were issued. -/
structure InitEffects where
  detail_fetches : Nat
  llm_calls : Nat
deriving DecidableEq

/-- `DetailsPreparation.__init__` (src/data_models/DetailsPreparation.py
lines 55-74): reject a non-iterable `question_ids` (ValueError, the spec's
InvalidInput); resolve the details dictionary from the supplied mapping or by
fetching every id (one HTTP fetch per id, modelled by `fetch`); set
`unification_response` to `None`; when exactly one id is present, populate
`unified_details` immediately from that question's raw detail mapping
(indexing the details dictionary, a `KeyError` when a supplied mapping lacks
the id), otherwise leave it `None`.  No LLM call is issued.
`resolveDetailsDict` is the `if question_details_dict is None` branch (lines
63-68), paired with the number of per-id HTTP fetches it issues. -/
def resolveDetailsDict (ids : List Int)
    (question_details_dict : Option (List (Int × QuestionDetails)))
    (fetch : Int → QuestionDetails) : List (Int × QuestionDetails) × Nat :=
  match question_details_dict with
  | some d => (d, 0)
  | none => (ids.map (fun i => (i, fetch i)), ids.length)

/-- See `resolveDetailsDict` above: the body of `DetailsPreparation.__init__`
(src/data_models/DetailsPreparation.py lines 55-74). -/
def detailsPreparation_init (question_ids : PyArg)
    (question_details_dict : Option (List (Int × QuestionDetails)))
    (fetch : Int → QuestionDetails) :
    Except PyErr DetailsPreparationState × InitEffects :=
  match question_ids with
  | PyArg.notIterable => (Except.error PyErr.invalidInput, ⟨0, 0⟩)
  | PyArg.iterable ids =>
      let fetched := resolveDetailsDict ids question_details_dict fetch
      match ids with
      | [q] =>
          match List.lookup q fetched.1 with
          | some qd =>
              (Except.ok ⟨ids, fetched.1, none, some (PyVal.vDict qd.details_dict)⟩,
               ⟨fetched.2, 0⟩)
          | none => (Except.error PyErr.keyError, ⟨fetched.2, 0⟩)
      | _ => (Except.ok ⟨ids, fetched.1, none, none⟩, ⟨fetched.2, 0⟩)

/-- `DetailsPreparation.fetch_detail_unification_response` (lines 76-93):
when `unified_details` is already populated the body is skipped entirely (no
call); otherwise one LLM call is issued (its response modelled by `resp`),
stored in `unification_response`, and its content is parsed with
`try_to_find_and_eval_dict`; on success the result becomes
`unified_details`, on any failure (including a non-string content, whose
`.find` raises inside the `try`) a ValueError (InvalidFormat) is raised,
leaving `unified_details` absent.  Returns the updated object state, the
outcome, and the number of LLM calls issued.
`unification_parse_attempt` is the parse step (lines 88-93) on the fetched
response; `fetch_detail_unification_response` below is the whole method. -/
def unification_parse_attempt (resp : CompletionResponse)
    (ev : List Char → Option PyVal) : Except PyErr PyVal :=
  match CompletionResponse.content resp with
  | PyVal.vStr s =>
      match try_to_find_and_eval_dict ev s.toList with
      | Except.ok v => Except.ok v
      | Except.error _ => Except.error PyErr.invalidFormat
  | _ => Except.error PyErr.invalidFormat

/-- See `unification_parse_attempt` above. -/
def fetch_detail_unification_response (st : DetailsPreparationState)
    (resp : CompletionResponse) (ev : List Char → Option PyVal) :
    DetailsPreparationState × Except PyErr Unit × Nat :=
  match st.unified_details with
  | some _ => (st, Except.ok (), 0)
  | none =>
      let st1 := { st with unification_response := some resp }
      match unification_parse_attempt resp ev with
      | Except.ok v => ({ st1 with unified_details := some v }, Except.ok (), 1)
      | Except.error e => (st1, Except.error e, 1)

/-! ### src/data_models/Forecaster.py -/

/-- `AskNewsFetcher` (src/data_models/AskNewsFetcher.py): only its identity
matters to the Forecaster claims. -/
structure AskNewsFetcher where
  query : String

/-- The parsed forecast stored by `Forecaster.parse_forecast_response`: the
sanitized `forecasts` mapping (keys coerced to `int`, values to `float`) and
the sanitized `summaries` mapping (keys coerced to `int`). -/
structure ForecastDict where
  forecasts : List (Int × Rat)
  summaries : List (Int × PyVal)

/-- The dataclass fields of `Forecaster` (src/data_models/Forecaster.py
lines 27-60). -/
structure Forecaster where
  details_preparator : DetailsPreparationState
  news : Option AskNewsFetcher
  forecast_response : Option CompletionResponse
  forecast_dict : Option ForecastDict

/-- Python `.items()`: succeeds on a dictionary, raises `AttributeError` on
anything else (and `parsed_dict["forecasts"]` on a non-dictionary raises
`TypeError`); either way the surrounding `try` catches it, so only
success/failure is observable and `Option` suffices. -/
def asDictEntries : PyVal → Option (List (String × PyVal))
  | PyVal.vDict es => some es
  | _ => none

/-- The comprehension `{int(k): float(v) for k, v in parsed_dict
["forecasts"].items()}` (src/data_models/Forecaster.py line 87): coerce
every key with `int()` and every value with `float()`, accumulating
insertion-ordered with overwrite on duplicate coerced keys; the first failing
coercion raises. -/
def sanitizeForecastsAux (acc : List (Int × Rat)) :
    List (String × PyVal) → Option (List (Int × Rat))
  | [] => some acc
  | (k, v) :: rest => do
      let ki ← pyIntOfStr k
      let vf ← pyFloat v
      sanitizeForecastsAux (dictInsert acc ki vf) rest

/-- The comprehension `{int(k): v for k, v in parsed_dict
["summaries"].items()}` (src/data_models/Forecaster.py line 88). -/
def sanitizeSummariesAux (acc : List (Int × PyVal)) :
    List (String × PyVal) → Option (List (Int × PyVal))
  | [] => some acc
  | (k, v) :: rest => do
      let ki ← pyIntOfStr k
      sanitizeSummariesAux (dictInsert acc ki v) rest

/-- The sanitizing body of `Forecaster.parse_forecast_response` (lines
85-89), applied to the value returned by `try_to_find_and_eval_dict`: index
`"forecasts"` and `"summaries"`, iterate both as dictionaries, and coerce;
any failure is caught by the surrounding `try`. -/
def sanitize_forecast_dict (parsed_dict : PyVal) : Option ForecastDict := do
  let es ← asDictEntries parsed_dict
  let fv ← List.lookup "forecasts" es
  let sv ← List.lookup "summaries" es
  let fes ← asDictEntries fv
  let ses ← asDictEntries sv
  let f ← sanitizeForecastsAux [] fes
  let s ← sanitizeSummariesAux [] ses
  pure ⟨f, s⟩

/-- The string `"answer_dictionary"` (src/data_models/Forecaster.py line
84). -/
def answerDictionaryDelimiter : List Char := String.toList "answer_dictionary"

/-- The body of `Forecaster.parse_forecast_response` (lines 83-93) on a
content string: trim the content to the first occurrence of
`"answer_dictionary"` (outside the `try`), recover a value with
`try_to_find_and_eval_dict`, sanitize it, and collapse every failure inside
the `try` to the single `ValueError` (InvalidFormat). -/
def parse_forecast_core (ev : List Char → Option PyVal) (content : List Char) :
    Except PyErr ForecastDict :=
  let trimmed_answer := trim_beginning_of_string content answerDictionaryDelimiter
  match try_to_find_and_eval_dict ev trimmed_answer with
  | Except.error _ => Except.error PyErr.invalidFormat
  | Except.ok parsed_dict =>
      match sanitize_forecast_dict parsed_dict with
      | some fd => Except.ok fd
      | none => Except.error PyErr.invalidFormat

/-- Storing the sanitized dictionary in `self.forecast_dict` (line 89). -/
def storeForecast (f : Forecaster) (fd : ForecastDict) : Forecaster :=
  { f with forecast_dict := some fd }

/-- `Forecaster.parse_forecast_response` (lines 83-93): read
`self.forecast_response.content` (an `AttributeError` when the response was
never fetched, or when the content is not a string — both outside the
`try`), then parse and store the sanitized dictionary in
`self.forecast_dict`. -/
def Forecaster.parse_forecast_response (ev : List Char → Option PyVal)
    (f : Forecaster) : Except PyErr Forecaster :=
  match f.forecast_response with
  | none => Except.error PyErr.attributeError
  | some resp =>
      match CompletionResponse.content resp with
      | PyVal.vStr s =>
          (parse_forecast_core ev s.toList).map (storeForecast f)
      | _ => Except.error PyErr.attributeError

/-- `Forecaster.fetch_forecast_response` (lines 64-72): when a response is
already stored, only a warning is logged — no model call, no state change;
otherwise one proxy call is issued (its result modelled by `resp`) and
stored.  Returns the updated object and the number of model calls issued. -/
def Forecaster.fetch_forecast_response (f : Forecaster)
    (resp : CompletionResponse) : Forecaster × Nat :=
  match f.forecast_response with
  | some _ => (f, 0)
  | none => ({ f with forecast_response := some resp }, 1)

/-! ### src/data_models/VectorStoreManager.py -/

/-- Why `VectorStoreManager.update_store`'s loop stopped. -/
inductive StopReason where
  | emptyPage : StopReason
  | noNewDocuments : StopReason
  | raised : PyErr → StopReason
deriving DecidableEq

/-- The filter of `update_store` (line 62): keep the questions whose `id` is
not already indexed.  Python's `qd.id not in existing_ids` compares the `id`
value against a list of integers, so only an integer id can be filtered
out. -/
def questionNotIndexed (existing_ids : List Int) (qd : QuestionDetails) : Bool :=
  match QuestionDetails.qid qd with
  | PyVal.vInt n => !(existing_ids.contains n)
  | _ => true

/-- The `while True` loop of `update_store` (src/data_models/
VectorStoreManager.py lines 49-69), parametrized by the page source (raw
`results` records per offset, as the claim is): stop on an empty page; build
a `QuestionDetails` per record (a failing construction raises, terminating
the loop); filter out already-indexed ids; stop when nothing new remains;
otherwise add the new documents and repeat at `offset + 100`.  The added
documents are represented by their question details (the title/metadata
rendering of `_document_from_question_details` does not influence the
control flow).  `fuel`-indexed so that non-termination is observable:
`none` means the loop ran out of fuel, `some` means it stopped. -/
def update_store_go (source : Nat → List (List (String × PyVal)))
    (existing_ids : List Int) :
    Nat → Nat → Option (List QuestionDetails × StopReason)
  | 0, _ => none
  | fuel + 1, current_offset =>
      let results := source current_offset
      if results.isEmpty then some ([], StopReason.emptyPage)
      else
        match results.mapM mkQuestionDetails with
        | Except.error e => some ([], StopReason.raised e)
        | Except.ok question_details_list =>
            let filtered := question_details_list.filter (questionNotIndexed existing_ids)
            if filtered.isEmpty then some ([], StopReason.noNewDocuments)
            else
              (update_store_go source existing_ids fuel (current_offset + 100)).map
                (fun r => (filtered ++ r.1, r.2))

/-- `VectorStoreManager.update_store` (lines 43-69): run the sync loop from
offset 0. -/
def update_store (source : Nat → List (List (String × PyVal)))
    (existing_ids : List Int) (fuel : Nat) :
    Option (List QuestionDetails × StopReason) :=
  update_store_go source existing_ids fuel 0

/-! ### Specification-level companions and concrete example data -/

/-- The coerced forecasts mapping as the specification words it: every key
coerced to an integer, every value to a float, insertion-ordered with
overwrite.  Total (the coercions are assumed to succeed); compared against
the exception-driven `sanitizeForecastsAux` from the source. -/
def coerceForecastEntries (fes : List (String × PyVal)) : List (Int × Rat) :=
  fes.foldl (fun acc p => dictInsert acc ((pyIntOfStr p.1).getD 0) ((pyFloat p.2).getD 0)) []

/-- The coerced summaries mapping as the specification words it: every key
coerced to an integer, values untouched. -/
def coerceSummaryEntries (ses : List (String × PyVal)) : List (Int × PyVal) :=
  ses.foldl (fun acc p => dictInsert acc ((pyIntOfStr p.1).getD 0) p.2) []

/-- A detail-fetching stub used by concrete instantiations. -/
def trivialFetch : Int → QuestionDetails := fun _ => ⟨[]⟩

/-- A raw platform question record carrying all six required fields, with
id 5. -/
def exampleRawQuestion : List (String × PyVal) :=
  [("id", PyVal.vInt 5),
   ("title", PyVal.vStr "t"),
   ("resolution_criteria", PyVal.vStr "r"),
   ("fine_print", PyVal.vStr "f"),
   ("description", PyVal.vStr "d"),
   ("publish_time", PyVal.vStr "2024-01-01T00:00:00")]

/-- The `QuestionDetails` wrapping `exampleRawQuestion`. -/
def exampleQuestionDetails : QuestionDetails := ⟨exampleRawQuestion⟩

/-- A completion response whose `content` accessor yields the string
`"x"`. -/
def exampleContentResponse : CompletionResponse :=
  ⟨[("choices",
     PyVal.vList [PyVal.vDict [("message", PyVal.vDict [("content", PyVal.vStr "x")])]])]⟩

/-- A recovered forecast payload of the shape the final pipeline stage is
instructed to emit. -/
def exampleParsedDict : PyVal :=
  PyVal.vDict
    [("forecasts", PyVal.vDict [("1", PyVal.vFloat (3 / 4))]),
     ("summaries", PyVal.vDict [("1", PyVal.vStr "hi")])]

/-- An evaluator that returns `exampleParsedDict` for every input. -/
def evalToExampleDict : List Char → Option PyVal := fun _ => some exampleParsedDict

/-- An evaluator that fails on every input (every `eval` raises). -/
def evalAlwaysFails : List Char → Option PyVal := fun _ => none

/-- A `Forecaster` whose forecast response is already fetched, with content
`"x"`. -/
def exampleForecaster : Forecaster :=
  ⟨⟨[1], [], none, none⟩, none, some exampleContentResponse, none⟩

/-! ## Theorems -/

/-- C9: for every Forecaster whose forecast response has already been
fetched, calling `fetch_forecast_response` again issues no model call and
leaves the object (in particular the stored response) unchanged. -/
theorem fetch_forecast_response_idempotent (f : Forecaster)
    (resp r : CompletionResponse) (h : f.forecast_response = some r) :
    Forecaster.fetch_forecast_response f resp = (f, 0) := by
  simp [Forecaster.fetch_forecast_response, h]

/-- Witness for C9 at a Forecaster whose response is already fetched. -/
theorem fetch_forecast_response_idempotent_witness :
    Forecaster.fetch_forecast_response exampleForecaster ⟨[]⟩ = (exampleForecaster, 0) :=
  fetch_forecast_response_idempotent exampleForecaster ⟨[]⟩ exampleContentResponse rfl

/-- C3: constructing a `QuestionDetails` fails, naming every missing
required field, exactly when one of the six required fields is absent from
the raw record; construction from a record containing all six succeeds. -/
theorem questionDetails_required_fields_spec (d : List (String × PyVal)) :
    ((∃ k ∈ question_details_required_keys, hasKey d k = false) →
      mkQuestionDetails d = Except.error (PyErr.missingData (questionDetailsMissingKeys d))
        ∧ questionDetailsMissingKeys d ≠ []
        ∧ (∀ k, k ∈ questionDetailsMissingKeys d
            ↔ k ∈ question_details_required_keys ∧ hasKey d k = false))
    ∧ ((∀ k ∈ question_details_required_keys, hasKey d k = true) →
      mkQuestionDetails d = Except.ok ⟨d⟩) := by
  constructor
  · rintro ⟨k, hk, habs⟩
    have hmem : k ∈ questionDetailsMissingKeys d := by
      simp [questionDetailsMissingKeys, List.mem_filter, hk, habs]
    have hne : questionDetailsMissingKeys d ≠ [] := List.ne_nil_of_mem hmem
    refine ⟨?_, hne, ?_⟩
    · have : (questionDetailsMissingKeys d).isEmpty = false := by
        cases hmk : questionDetailsMissingKeys d with
        | nil => exact absurd hmk hne
        | cons a l => rfl
      simp [mkQuestionDetails, this]
    · intro k'
      simp [questionDetailsMissingKeys, List.mem_filter]
  · intro hall
    have : questionDetailsMissingKeys d = [] := by
      rw [questionDetailsMissingKeys, List.filter_eq_nil_iff]
      intro a ha
      simp [hall a ha]
    simp [mkQuestionDetails, this]

/-- Witness for C3: a record missing everything fails naming all six fields;
the complete example record succeeds. -/
theorem questionDetails_required_fields_spec_witness :
    (mkQuestionDetails []
        = Except.error (PyErr.missingData (questionDetailsMissingKeys []))
      ∧ questionDetailsMissingKeys [] ≠ []
      ∧ (∀ k, k ∈ questionDetailsMissingKeys []
          ↔ k ∈ question_details_required_keys ∧ hasKey [] k = false))
    ∧ mkQuestionDetails exampleRawQuestion = Except.ok ⟨exampleRawQuestion⟩ :=
  ⟨(questionDetails_required_fields_spec []).1 ⟨"id", by decide, by decide⟩,
   (questionDetails_required_fields_spec exampleRawQuestion).2 (by decide)⟩

/-- C6: the query `list_questions` actually issues is hard-coded to
`order_by=-activity`, never `-publish_time`; moreover the keyword arguments
`update_store` passes (`order_by`, `status`, `forecast_type`) are not
parameters of `list_questions`, so every call raises a `TypeError` and no
page request is issued at all. -/
theorem update_store_list_questions_call_mismatch :
    pythonKeywordsAccepted list_questions_parameter_names update_store_call_keyword_names
        = false
    ∧ (∀ t o c, List.lookup "order_by" (list_questions_url_qparams t o c)
        = some (PyVal.vStr "-activity"))
    ∧ (∀ t o c, List.lookup "order_by" (list_questions_url_qparams t o c)
        ≠ some (PyVal.vStr "-publish_time")) := by
  refine ⟨by decide, fun t o c => rfl, fun t o c h => ?_⟩
  have h0 : List.lookup "order_by" (list_questions_url_qparams t o c)
      = some (PyVal.vStr "-activity") := rfl
  rw [h0] at h
  have h1 : PyVal.vStr "-activity" = PyVal.vStr "-publish_time" := Option.some.inj h
  have h2 : ("-activity" : String) = "-publish_time" := by injection h1
  exact absurd h2 (by decide)

/-- C5 (counterexample): constructing a `DetailsPreparation` from an empty
iterable of ids does not fail — it succeeds with no details fetched and no
`unified_details` — contradicting the claim that an empty iterable fails
with InvalidInput. -/
theorem detailsPreparation_empty_ids_counterexample :
    detailsPreparation_init (PyArg.iterable []) (some []) trivialFetch
        = (Except.ok ⟨[], [], none, none⟩, ⟨0, 0⟩)
    ∧ (detailsPreparation_init (PyArg.iterable []) (some []) trivialFetch).1
        ≠ Except.error PyErr.invalidInput := by
  refine ⟨rfl, ?_⟩
  have h0 : (detailsPreparation_init (PyArg.iterable []) (some []) trivialFetch).1
      = Except.ok ⟨[], [], none, none⟩ := rfl
  rw [h0]
  exact fun h => Except.noConfusion h

/-- C5 (amended): constructing with a non-iterable `question_ids` fails with
InvalidInput before any detail fetching occurs; an empty iterable is not
rejected — construction succeeds, fetches nothing, and leaves
`unified_details` absent. -/
theorem detailsPreparation_init_validation
    (supplied : Option (List (Int × QuestionDetails))) (fetch : Int → QuestionDetails) :
    detailsPreparation_init PyArg.notIterable supplied fetch
        = (Except.error PyErr.invalidInput, ⟨0, 0⟩)
    ∧ (∃ st, detailsPreparation_init (PyArg.iterable []) supplied fetch
          = (Except.ok st, ⟨0, 0⟩) ∧ st.unified_details = none) := by
  refine ⟨rfl, ?_⟩
  cases supplied with
  | none => exact ⟨⟨[], [], none, none⟩, rfl, rfl⟩
  | some d => exact ⟨⟨[], d, none, none⟩, rfl, rfl⟩

/-- C8: the `CompletionResponse` accessors are defensive: with an empty or
missing `choices` list, `first_choice`, `content` and `finish_reason` are all
absent; with `usage` missing, the three token accessors are absent and
`tokens_all` renders as the literal `"None, None, None"`; with a `usage`
holding only `prompt_tokens = 863`, `tokens_all` renders as
`"863, None, None"`. -/
theorem completionResponse_defensive_accessors :
    (∀ r : CompletionResponse,
        (pyGet r.response_json "choices" = PyVal.vNone
          ∨ pyGet r.response_json "choices" = PyVal.vList []) →
        CompletionResponse.first_choice r = Except.ok PyVal.vNone
        ∧ CompletionResponse.content r = PyVal.vNone
        ∧ CompletionResponse.finish_reason r = PyVal.vNone)
    ∧ (∀ r : CompletionResponse,
        pyGet r.response_json "usage" = PyVal.vNone →
        CompletionResponse.prompt_tokens r = PyVal.vNone
        ∧ CompletionResponse.completion_tokens r = PyVal.vNone
        ∧ CompletionResponse.total_tokens r = PyVal.vNone
        ∧ CompletionResponse.tokens_all r = "None, None, None")
    ∧ (∀ r : CompletionResponse,
        pyGet r.response_json "usage" = PyVal.vDict [("prompt_tokens", PyVal.vInt 863)] →
        CompletionResponse.tokens_all r = "863, None, None") := by
  refine ⟨fun r h => ?_, fun r h => ?_, fun r h => ?_⟩
  · have hfc : CompletionResponse.first_choice r = Except.ok PyVal.vNone := by
      rcases h with h | h <;> simp [CompletionResponse.first_choice, h]
    refine ⟨hfc, ?_, ?_⟩
    · simp only [CompletionResponse.content, hfc]
      rfl
    · simp only [CompletionResponse.finish_reason, hfc]
      rfl
  · refine ⟨?_, ?_, ?_, ?_⟩ <;>
      simp [CompletionResponse.prompt_tokens, CompletionResponse.completion_tokens,
        CompletionResponse.total_tokens, CompletionResponse.tokens_all, h, pyDotGet,
        pyStrOfVal]
  · simp only [CompletionResponse.tokens_all, CompletionResponse.prompt_tokens,
      CompletionResponse.completion_tokens, CompletionResponse.total_tokens, h]
    rfl

/-- Witness for C8 at three concrete payloads: empty `choices`, a payload
with no `usage`, and a `usage` holding only `prompt_tokens = 863`. -/
theorem completionResponse_defensive_accessors_witness :
    (CompletionResponse.first_choice ⟨[("choices", PyVal.vList [])]⟩
          = Except.ok PyVal.vNone
      ∧ CompletionResponse.content ⟨[("choices", PyVal.vList [])]⟩ = PyVal.vNone
      ∧ CompletionResponse.finish_reason ⟨[("choices", PyVal.vList [])]⟩ = PyVal.vNone)
    ∧ (CompletionResponse.prompt_tokens ⟨[]⟩ = PyVal.vNone
      ∧ CompletionResponse.completion_tokens ⟨[]⟩ = PyVal.vNone
      ∧ CompletionResponse.total_tokens ⟨[]⟩ = PyVal.vNone
      ∧ CompletionResponse.tokens_all ⟨[]⟩ = "None, None, None")
    ∧ CompletionResponse.tokens_all
        ⟨[("usage", PyVal.vDict [("prompt_tokens", PyVal.vInt 863)])]⟩
        = "863, None, None" :=
  ⟨completionResponse_defensive_accessors.1 ⟨[("choices", PyVal.vList [])]⟩ (Or.inr rfl),
   completionResponse_defensive_accessors.2.1 ⟨[]⟩ rfl,
   completionResponse_defensive_accessors.2.2 ⟨[("usage",
     PyVal.vDict [("prompt_tokens", PyVal.vInt 863)])]⟩ rfl⟩

/-- C4: on every successful construction no LLM call is made; with exactly
one question id `unified_details` is populated immediately from that
question's raw detail mapping, with any other number it is absent; and when
it is absent, one unification fetch leaves it absent exactly while the fetch
fails to parse and populates it once the fetch succeeds. -/
theorem detailsPreparation_unified_details_invariant :
    (∀ qids supplied fetch st eff,
        detailsPreparation_init qids supplied fetch = (Except.ok st, eff) →
        eff.llm_calls = 0
        ∧ (∀ q, st.question_ids = [q] →
            ∃ qd, List.lookup q st.question_details_dict = some qd
              ∧ st.unified_details = some (PyVal.vDict qd.details_dict))
        ∧ (st.question_ids.length ≠ 1 → st.unified_details = none))
    ∧ (∀ st resp ev, st.unified_details = none →
        (fetch_detail_unification_response st resp ev).2.2 = 1
        ∧ (∀ e, (fetch_detail_unification_response st resp ev).2.1 = Except.error e →
            (fetch_detail_unification_response st resp ev).1.unified_details = none)
        ∧ (∀ u, (fetch_detail_unification_response st resp ev).2.1 = Except.ok u →
            ∃ v, (fetch_detail_unification_response st resp ev).1.unified_details = some v)) := by
  constructor
  · intro qids supplied fetch st eff h
    cases qids with
    | notIterable => simp [detailsPreparation_init] at h
    | iterable ids =>
      match ids with
      | [] =>
        simp only [detailsPreparation_init] at h
        rw [Prod.ext_iff] at h
        obtain ⟨h1, h2⟩ := h
        obtain rfl := Except.ok.inj h1
        obtain rfl := h2
        exact ⟨rfl, fun q hq => List.noConfusion hq, fun _ => rfl⟩
      | [q0] =>
        simp only [detailsPreparation_init] at h
        rcases hlk : List.lookup q0 (resolveDetailsDict [q0] supplied fetch).1 with _ | qd
        · rw [hlk] at h
          simp at h
        · rw [hlk] at h
          rw [Prod.ext_iff] at h
          obtain ⟨h1, h2⟩ := h
          obtain rfl := Except.ok.inj h1
          obtain rfl := h2
          refine ⟨rfl, fun q hq => ?_, fun hlen => absurd rfl hlen⟩
          obtain rfl : q0 = q := (List.cons.inj hq).1
          exact ⟨qd, hlk, rfl⟩
      | q0 :: q1 :: rest =>
        simp only [detailsPreparation_init] at h
        rw [Prod.ext_iff] at h
        obtain ⟨h1, h2⟩ := h
        obtain rfl := Except.ok.inj h1
        obtain rfl := h2
        refine ⟨rfl, fun q hq => ?_, fun _ => rfl⟩
        exact absurd (List.cons.inj hq).2 (fun hx => List.noConfusion hx)
  · intro st resp ev h
    cases htr : unification_parse_attempt resp ev with
    | ok v =>
      have hres : fetch_detail_unification_response st resp ev
          = ({ st with unification_response := some resp, unified_details := some v },
             Except.ok (), 1) := by
        simp [fetch_detail_unification_response, h, htr]
      rw [hres]
      exact ⟨rfl, fun e he => Except.noConfusion he, fun u _ => ⟨v, rfl⟩⟩
    | error e0 =>
      have hres : fetch_detail_unification_response st resp ev
          = ({ st with unification_response := some resp }, Except.error e0, 1) := by
        simp [fetch_detail_unification_response, h, htr]
      rw [hres]
      exact ⟨rfl, fun e _ => h, fun u hu => Except.noConfusion hu⟩

/-- Witness for C4: a one-question construction populates `unified_details`
from the raw record; a failed unification fetch leaves it absent; a
successful one populates it. -/
theorem detailsPreparation_unified_details_invariant_witness :
    (∃ qd, List.lookup (7 : Int) [((7 : Int), exampleQuestionDetails)] = some qd
      ∧ (some (PyVal.vDict exampleRawQuestion) : Option PyVal)
          = some (PyVal.vDict qd.details_dict))
    ∧ (fetch_detail_unification_response ⟨[1, 2], [], none, none⟩ exampleContentResponse
          evalAlwaysFails).1.unified_details = none
    ∧ (∃ v, (fetch_detail_unification_response ⟨[1, 2], [], none, none⟩
          exampleContentResponse evalToExampleDict).1.unified_details = some v) := by
  refine ⟨?_, ?_, ?_⟩
  · exact (detailsPreparation_unified_details_invariant.1 (PyArg.iterable [7])
      (some [((7 : Int), exampleQuestionDetails)]) trivialFetch
      ⟨[7], [((7 : Int), exampleQuestionDetails)], none,
        some (PyVal.vDict exampleRawQuestion)⟩ ⟨0, 0⟩ rfl).2.1 7 rfl
  · exact (detailsPreparation_unified_details_invariant.2 ⟨[1, 2], [], none, none⟩
      exampleContentResponse evalAlwaysFails rfl).2.1 PyErr.invalidFormat rfl
  · exact (detailsPreparation_unified_details_invariant.2 ⟨[1, 2], [], none, none⟩
      exampleContentResponse evalToExampleDict rfl).2.2 () rfl

/-- When every id of the list is present in the probabilities mapping, the
materialization of the forecasts list succeeds and yields the looked-up
values in order. -/
lemma mapM_lookup_of_total (probs : List (Int × Rat)) :
    ∀ qids : List Int, (∀ q ∈ qids, (List.lookup q probs).isSome) →
      List.mapM (fun q => List.lookup q probs) qids
        = some (qids.map (fun q => (List.lookup q probs).getD 0)) := by
  intro qids
  induction qids with
  | nil => intro _; rfl
  | cons q qs ih =>
    intro h
    obtain ⟨p, hp⟩ := Option.isSome_iff_exists.mp (h q (List.mem_cons_self q qs))
    have hqs := ih (fun x hx => h x (List.mem_cons_of_mem q hx))
    rw [List.mapM_cons, hp, hqs]
    simp [hp]

/-- When every id is present in the probabilities mapping (and, when a
summaries mapping is supplied, in it as well), the posting loop issues, for
each id in input order, the prediction and then the comment, and raises
nothing. -/
lemma uploadLoop_of_total (probs : List (Int × Rat))
    (summaries : Option (List (Int × String))) :
    ∀ qids : List Int, (∀ q ∈ qids, (List.lookup q probs).isSome) →
      (∀ smv q, summaries = some smv → q ∈ qids → (List.lookup q smv).isSome) →
      uploadLoop probs summaries qids
        = (expectedUploadActions qids probs summaries, none) := by
  intro qids
  induction qids with
  | nil => intro _ _; cases summaries <;> rfl
  | cons q qs ih =>
    intro h hs
    obtain ⟨p, hp⟩ := Option.isSome_iff_exists.mp (h q (List.mem_cons_self q qs))
    have hqs := ih (fun x hx => h x (List.mem_cons_of_mem q hx))
      (fun smv x hsm hx => hs smv x hsm (List.mem_cons_of_mem q hx))
    cases hsm : summaries with
    | none =>
      rw [hsm] at hqs
      simp [uploadLoop, hp, hqs, expectedUploadActions, hsm]
    | some sm =>
      obtain ⟨t, ht⟩ := Option.isSome_iff_exists.mp
        (hs sm q hsm (List.mem_cons_self q qs))
      rw [hsm] at hqs
      simp [uploadLoop, hp, ht, hqs, expectedUploadActions, hsm]

/-- C2: when every probability for the listed ids is present but some lies
outside `[0, 1]`, `upload_predictions` fails with InvalidInput having issued
no HTTP request; when all lie within `[0, 1]` (and the summaries mapping,
when supplied, covers the ids), it posts, for each id in input order, the
prediction and then the comment. -/
theorem upload_predictions_spec :
    (∀ (question_ids : List Int) probs summaries,
        (∀ q ∈ question_ids, (List.lookup q probs).isSome) →
        (∃ q ∈ question_ids, ∃ p : Rat,
            List.lookup q probs = some p ∧ (p < 0 ∨ 1 < p)) →
        upload_predictions question_ids probs summaries
          = ([], some PyErr.invalidInput))
    ∧ (∀ (question_ids : List Int) probs summaries,
        (∀ q ∈ question_ids, (List.lookup q probs).isSome) →
        (∀ q p, q ∈ question_ids → List.lookup q probs = some p → 0 ≤ p ∧ p ≤ 1) →
        (∀ smv q, summaries = some smv → q ∈ question_ids → (List.lookup q smv).isSome) →
        upload_predictions question_ids probs summaries
          = (expectedUploadActions question_ids probs summaries, none)) := by
  constructor
  · intro qids probs summaries htotal hbad
    obtain ⟨q, hq, p, hp, hout⟩ := hbad
    have hm := mapM_lookup_of_total probs qids htotal
    have hall : (qids.map (fun x => (List.lookup x probs).getD 0)).all
        (fun forecast => decide (0 ≤ forecast) && decide (forecast ≤ 1)) = false := by
      rw [List.all_eq_false]
      refine ⟨p, List.mem_map.mpr ⟨q, hq, by rw [hp]; rfl⟩, ?_⟩
      rcases hout with hlt | hgt
      · simp [decide_eq_false (not_le.mpr hlt)]
      · simp [decide_eq_false (not_le.mpr hgt)]
    simp only [upload_predictions, hm]
    rw [hall]
    simp
  · intro qids probs summaries htotal hgood hsm
    have hm := mapM_lookup_of_total probs qids htotal
    have hall : (qids.map (fun x => (List.lookup x probs).getD 0)).all
        (fun forecast => decide (0 ≤ forecast) && decide (forecast ≤ 1)) = true := by
      rw [List.all_eq_true]
      intro x hx
      obtain ⟨q, hq, hxq⟩ := List.mem_map.mp hx
      obtain ⟨p, hp⟩ := Option.isSome_iff_exists.mp (htotal q hq)
      obtain ⟨h0, h1⟩ := hgood q p hq hp
      rw [← hxq, hp]
      simp [h0, h1]
    simp only [upload_predictions, hm]
    rw [hall]
    simp [uploadLoop_of_total probs summaries qids htotal hsm]

/-- Witness for C2: uploading with probability 2 fails with InvalidInput and
no HTTP action; a fully valid upload posts prediction-then-comment per id in
order. -/
theorem upload_predictions_spec_witness :
    upload_predictions [1] [(1, 2)] none = ([], some PyErr.invalidInput)
    ∧ upload_predictions [1, 2] [(1, 1 / 2), (2, 3 / 4)] (some [(1, "a"), (2, "b")])
        = (expectedUploadActions [1, 2] [(1, 1 / 2), (2, 3 / 4)]
            (some [(1, "a"), (2, "b")]), none) :=
  ⟨upload_predictions_spec.1 [1] [(1, 2)] none (by decide)
      ⟨1, by decide, 2, by decide, Or.inr (by norm_num)⟩,
   upload_predictions_spec.2 [1, 2] [(1, 1 / 2), (2, 3 / 4)] (some [(1, "a"), (2, "b")])
      (by decide)
      (by
        intro q p hq hp
        rcases List.mem_cons.mp hq with rfl | hq2
        · rw [show List.lookup (1 : Int) [((1 : Int), (1 : Rat) / 2), (2, 3 / 4)]
              = some (1 / 2) from rfl] at hp
          cases Option.some.inj hp
          norm_num
        · rcases List.mem_cons.mp hq2 with rfl | hq3
          · rw [show List.lookup (2 : Int) [((1 : Int), (1 : Rat) / 2), (2, 3 / 4)]
                = some (3 / 4) from rfl] at hp
            cases Option.some.inj hp
            norm_num
          · cases hq3)
      (by
        intro smv q hsm hq
        cases Option.some.inj hsm
        rcases List.mem_cons.mp hq with rfl | hq2
        · rfl
        · rcases List.mem_cons.mp hq2 with rfl | hq3
          · rfl
          · cases hq3)⟩

/-- A character absent from a string is not found. -/
lemma findCharAux_eq_none (c : Char) :
    ∀ s : List Char, (∀ x ∈ s, x ≠ c) → findCharAux s c = none := by
  intro s
  induction s with
  | nil => intro _; rfl
  | cons a t ih =>
    intro h
    simp only [findCharAux]
    rw [if_neg (h a (List.mem_cons_self a t))]
    rw [ih (fun x hx => h x (List.mem_cons_of_mem a hx))]
    rfl

/-- A reverse find returns an index holding the sought character. -/
lemma rfindCharAux_getElem (c : Char) :
    ∀ (s : List Char) (k : Nat), rfindCharAux s c = some k → s[k]? = some c := by
  intro s
  induction s with
  | nil => intro k h; exact Option.noConfusion h
  | cons a t ih =>
    intro k h
    simp only [rfindCharAux] at h
    cases hr : rfindCharAux t c with
    | some k2 =>
      rw [hr] at h
      obtain rfl := Option.some.inj h
      rw [List.getElem?_cons_succ]
      exact ih k2 hr
    | none =>
      rw [hr] at h
      by_cases hac : a = c
      · rw [if_pos hac] at h
        obtain rfl := Option.some.inj h
        simp [hac]
      · rw [if_neg hac] at h
        exact Option.noConfusion h

/-- Dropping all but the last element of a list whose last element is `c`
leaves exactly `[c]`. -/
lemma drop_last_of_getElem {α : Type} (c : α) :
    ∀ s : List α, s[s.length - 1]? = some c → s.drop (s.length - 1) = [c] := by
  intro s
  induction s with
  | nil => intro h; simp at h
  | cons a t ih =>
    intro h
    cases t with
    | nil =>
      simp at h
      simp [h]
    | cons b t2 =>
      have hlen : (a :: b :: t2).length - 1 = (b :: t2).length - 1 + 1 := by
        simp
      rw [hlen] at h ⊢
      rw [List.getElem?_cons_succ] at h
      rw [List.drop_succ_cons]
      exact ih h

/-- C10: on an input containing no opening brace, the loose
dictionary-recovery `try_to_find_and_eval_dict` always fails with
InvalidFormat: the slice between the first opening and last closing brace
degenerates to the empty string or to the single final closing brace, and
Python's `eval` raises a `SyntaxError` on both (the two `ev` hypotheses). -/
theorem try_to_find_and_eval_dict_no_brace_fails
    (ev : List Char → Option PyVal) (s : List Char)
    (hempty : ev [] = none) (hbrace : ev [braceClose] = none)
    (hno : ∀ x ∈ s, x ≠ braceOpen) :
    try_to_find_and_eval_dict ev s = Except.error PyErr.invalidFormat := by
  have hfind : pyFindChar s braceOpen = -1 := by
    rw [pyFindChar, findCharAux_eq_none braceOpen s hno]
  have key : pySlice s (pyFindChar s braceOpen) (pyRfindChar s braceClose + 1) = []
      ∨ pySlice s (pyFindChar s braceOpen) (pyRfindChar s braceClose + 1)
          = [braceClose] := by
    rw [hfind]
    cases hr : rfindCharAux s braceClose with
    | none =>
      left
      rw [pyRfindChar, hr]
      have hstop : pySliceIdx s.length ((-1 : Int) + 1) = 0 := by
        norm_num [pySliceIdx]
      rw [pySlice, hstop]
      simp
    | some k =>
      rw [pyRfindChar, hr]
      have hk : s[k]? = some braceClose := rfindCharAux_getElem braceClose s k hr
      have hklen : k < s.length := by
        by_contra hge
        rw [List.getElem?_eq_none (Nat.le_of_not_lt hge)] at hk
        exact Option.noConfusion hk
      have hstart : pySliceIdx s.length (-1) = s.length - 1 := by
        rw [pySliceIdx, if_pos (by norm_num : (-1 : Int) < 0)]
        omega
      have hstop : pySliceIdx s.length ((k : Int) + 1) = k + 1 := by
        rw [pySliceIdx, if_neg (by omega : ¬((k : Int) + 1 < 0))]
        have h1 : ((k : Int) + 1).toNat = k + 1 := by omega
        rw [h1]
        exact min_eq_left (by omega)
      rw [pySlice, hstart, hstop]
      by_cases hlast : k + 1 = s.length
      · right
        have hlen2 : s.length - 1 = k := by omega
        rw [hlast, List.take_length]
        exact drop_last_of_getElem braceClose s (by rw [hlen2]; exact hk)
      · left
        apply List.drop_eq_nil_of_le
        rw [List.length_take]
        omega
  rcases key with hk | hk
  · simp only [try_to_find_and_eval_dict, find_first_and_last_braces]
    rw [hk, hempty]
  · simp only [try_to_find_and_eval_dict, find_first_and_last_braces]
    rw [hk, hbrace]

/-- Witness for C10 at the brace-free input `"abc"` and an always-raising
evaluator. -/
theorem try_to_find_and_eval_dict_no_brace_fails_witness :
    try_to_find_and_eval_dict evalAlwaysFails (String.toList "abc")
      = Except.error PyErr.invalidFormat :=
  try_to_find_and_eval_dict_no_brace_fails evalAlwaysFails (String.toList "abc")
    rfl rfl (by decide)

/-- The sync loop stops within `fuel` steps whenever some later page (at an
offset reachable in fewer than `fuel` increments of 100) is empty. -/
lemma update_store_go_isSome (source : Nat → List (List (String × PyVal)))
    (existing_ids : List Int) :
    ∀ fuel k offset, k < fuel → source (offset + 100 * k) = [] →
      (update_store_go source existing_ids fuel offset).isSome := by
  intro fuel
  induction fuel with
  | zero => intro k offset hk _; exact absurd hk (Nat.not_lt_zero k)
  | succ f ih =>
    intro k offset hk hsrc
    simp only [update_store_go]
    by_cases hres : (source offset).isEmpty
    · rw [if_pos hres]; rfl
    · rw [if_neg hres]
      cases hmap : (source offset).mapM mkQuestionDetails with
      | error e => simp [hmap]
      | ok qds =>
        by_cases hfil : (qds.filter (questionNotIndexed existing_ids)).isEmpty
        · simp [hmap, hfil]
        · have hk0 : k ≠ 0 := by
            intro h0
            rw [h0, Nat.mul_zero, Nat.add_zero] at hsrc
            rw [hsrc] at hres
            exact hres rfl
          obtain ⟨k2, rfl⟩ := Nat.exists_eq_succ_of_ne_zero hk0
          have hsrc2 : source (offset + 100 + 100 * k2) = [] := by
            rw [show offset + 100 + 100 * k2 = offset + 100 * (k2 + 1) by ring]
            exact hsrc
          have hrec := ih k2 (offset + 100) (by omega) hsrc2
          obtain ⟨r, hrv⟩ := Option.isSome_iff_exists.mp hrec
          simp [hmap, hfil, hrv]

/-- C7: the sync loop of `update_store` terminates for every page source
that eventually returns an empty page; in particular it stops immediately on
an empty first page and on a non-empty first page all of whose ids are
already indexed. -/
theorem update_store_termination :
    (∀ source existing_ids k, source (100 * k) = [] →
        (update_store source existing_ids (k + 1)).isSome)
    ∧ (∀ source existing_ids, source 0 = [] →
        update_store source existing_ids 1 = some ([], StopReason.emptyPage))
    ∧ (∀ source existing_ids fuel qds, 0 < fuel → source 0 ≠ [] →
        (source 0).mapM mkQuestionDetails = Except.ok qds →
        qds.filter (questionNotIndexed existing_ids) = [] →
        update_store source existing_ids fuel
          = some ([], StopReason.noNewDocuments)) := by
  refine ⟨fun source existing_ids k hsrc => ?_, fun source existing_ids h => ?_,
    fun source existing_ids fuel qds hpos hne hmap hfil => ?_⟩
  · exact update_store_go_isSome source existing_ids (k + 1) k 0 (by omega)
      (by simpa using hsrc)
  · simp [update_store, update_store_go, h]
  · obtain ⟨f, rfl⟩ := Nat.exists_eq_succ_of_ne_zero (Nat.pos_iff_ne_zero.mp hpos)
    simp only [update_store, update_store_go]
    cases hsrc0 : source 0 with
    | nil => exact absurd hsrc0 hne
    | cons a t =>
      rw [hsrc0] at hmap
      rw [if_neg (by simp : ¬((a :: t).isEmpty = true))]
      rw [hmap]
      simp [hfil]

/-- Witness for C7: an immediately empty source terminates (stopping with
the empty-page reason), and a source whose sole page holds only the
already-indexed question 5 stops with the no-new-documents reason. -/
theorem update_store_termination_witness :
    (update_store (fun _ => []) [] 1).isSome
    ∧ update_store (fun _ => []) [] 1 = some ([], StopReason.emptyPage)
    ∧ update_store (fun _ => [exampleRawQuestion]) [5] 1
        = some ([], StopReason.noNewDocuments) :=
  ⟨update_store_termination.1 (fun _ => []) [] 0 rfl,
   update_store_termination.2.1 (fun _ => []) [] rfl,
   update_store_termination.2.2 (fun _ => [exampleRawQuestion]) [5] 1
     [⟨exampleRawQuestion⟩] (by norm_num) (List.cons_ne_nil _ _) rfl rfl⟩

/-- When every key of the forecasts mapping coerces with `int()` and every
value with `float()`, the sanitizing comprehension succeeds and equals the
total coercion fold. -/
lemma sanitizeForecastsAux_total :
    ∀ (fes : List (String × PyVal)) (acc : List (Int × Rat)),
      (∀ p ∈ fes, (pyIntOfStr p.1).isSome ∧ (pyFloat p.2).isSome) →
      sanitizeForecastsAux acc fes
        = some (fes.foldl
            (fun a p => dictInsert a ((pyIntOfStr p.1).getD 0) ((pyFloat p.2).getD 0))
            acc) := by
  intro fes
  induction fes with
  | nil => intro acc _; rfl
  | cons p rest ih =>
    intro acc h
    obtain ⟨k, v⟩ := p
    obtain ⟨hki, hvf⟩ := h (k, v) (List.mem_cons_self (k, v) rest)
    obtain ⟨ki, hk⟩ := Option.isSome_iff_exists.mp hki
    obtain ⟨vf, hv⟩ := Option.isSome_iff_exists.mp hvf
    have hrest := ih (dictInsert acc ki vf)
      (fun x hx => h x (List.mem_cons_of_mem (k, v) hx))
    simp only [sanitizeForecastsAux, hk, hv, List.foldl_cons, Option.getD_some]
    exact hrest

/-- When every key of the summaries mapping coerces with `int()`, the
sanitizing comprehension succeeds and equals the total coercion fold. -/
lemma sanitizeSummariesAux_total :
    ∀ (ses : List (String × PyVal)) (acc : List (Int × PyVal)),
      (∀ p ∈ ses, (pyIntOfStr p.1).isSome) →
      sanitizeSummariesAux acc ses
        = some (ses.foldl
            (fun a p => dictInsert a ((pyIntOfStr p.1).getD 0) p.2) acc) := by
  intro ses
  induction ses with
  | nil => intro acc _; rfl
  | cons p rest ih =>
    intro acc h
    obtain ⟨k, v⟩ := p
    obtain ⟨ki, hk⟩ := Option.isSome_iff_exists.mp (h (k, v) (List.mem_cons_self (k, v) rest))
    have hrest := ih (dictInsert acc ki v)
      (fun x hx => h x (List.mem_cons_of_mem (k, v) hx))
    simp only [sanitizeSummariesAux, hk, List.foldl_cons, Option.getD_some]
    exact hrest

/-- C1: when a dictionary of the shape `\x7b"forecasts": \x7b...\x7d,
"summaries": \x7b...\x7d\x7d` with coercible string keys and numeric values
is recovered from the response content, `parse_forecast_response` stores the
forecast mapping with keys coerced to integers and values to floats and the
summary mapping with keys coerced to integers; when no recovered value
sanitizes (including when recovery itself fails), it fails with
InvalidFormat. -/
theorem parse_forecast_response_spec :
    (∀ ev (f : Forecaster) resp s es fes ses,
        f.forecast_response = some resp →
        CompletionResponse.content resp = PyVal.vStr s →
        try_to_find_and_eval_dict ev
            (trim_beginning_of_string s.toList answerDictionaryDelimiter)
          = Except.ok (PyVal.vDict es) →
        List.lookup "forecasts" es = some (PyVal.vDict fes) →
        List.lookup "summaries" es = some (PyVal.vDict ses) →
        (∀ p ∈ fes, (pyIntOfStr p.1).isSome ∧ (pyFloat p.2).isSome) →
        (∀ p ∈ ses, (pyIntOfStr p.1).isSome) →
        Forecaster.parse_forecast_response ev f
          = Except.ok (storeForecast f
              (ForecastDict.mk (coerceForecastEntries fes) (coerceSummaryEntries ses))))
    ∧ (∀ ev (f : Forecaster) resp s,
        f.forecast_response = some resp →
        CompletionResponse.content resp = PyVal.vStr s →
        (∀ v, try_to_find_and_eval_dict ev
            (trim_beginning_of_string s.toList answerDictionaryDelimiter)
          = Except.ok v → sanitize_forecast_dict v = none) →
        Forecaster.parse_forecast_response ev f = Except.error PyErr.invalidFormat) := by
  constructor
  · intro ev f resp s es fes ses hresp hcontent hrec hlf hls hfc hsc
    have hf := sanitizeForecastsAux_total fes [] hfc
    have hs := sanitizeSummariesAux_total ses [] hsc
    have hsan : sanitize_forecast_dict (PyVal.vDict es)
        = some (ForecastDict.mk (coerceForecastEntries fes) (coerceSummaryEntries ses)) := by
      simp [sanitize_forecast_dict, asDictEntries, hlf, hls, hf, hs,
        coerceForecastEntries, coerceSummaryEntries]
    simp only [Forecaster.parse_forecast_response, hresp, hcontent,
      parse_forecast_core]
    rw [hrec]
    show Except.map (storeForecast f)
        (match sanitize_forecast_dict (PyVal.vDict es) with
         | some fd => Except.ok fd
         | none => Except.error PyErr.invalidFormat)
      = _
    rw [hsan]
    rfl
  · intro ev f resp s hresp hcontent hfail
    simp only [Forecaster.parse_forecast_response, hresp, hcontent]
    cases htr : try_to_find_and_eval_dict ev
        (trim_beginning_of_string s.toList answerDictionaryDelimiter) with
    | error e =>
      simp only [parse_forecast_core]
      rw [htr]
      rfl
    | ok v =>
      have hnone := hfail v htr
      simp only [parse_forecast_core]
      rw [htr]
      show Except.map (storeForecast f)
          (match sanitize_forecast_dict v with
           | some fd => Except.ok fd
           | none => Except.error PyErr.invalidFormat)
        = _
      rw [hnone]
      rfl

/-- Witness for C1: the example payload with forecast `"1" ↦ 0.75` parses
into the coerced mappings; an always-failing recovery yields InvalidFormat. -/
theorem parse_forecast_response_spec_witness :
    Forecaster.parse_forecast_response evalToExampleDict exampleForecaster
        = Except.ok (storeForecast exampleForecaster
            (ForecastDict.mk (coerceForecastEntries [("1", PyVal.vFloat (3 / 4))])
              (coerceSummaryEntries [("1", PyVal.vStr "hi")])))
    ∧ Forecaster.parse_forecast_response evalAlwaysFails exampleForecaster
        = Except.error PyErr.invalidFormat :=
  ⟨parse_forecast_response_spec.1 evalToExampleDict exampleForecaster
      exampleContentResponse "x"
      [("forecasts", PyVal.vDict [("1", PyVal.vFloat (3 / 4))]),
       ("summaries", PyVal.vDict [("1", PyVal.vStr "hi")])]
      [("1", PyVal.vFloat (3 / 4))] [("1", PyVal.vStr "hi")]
      rfl rfl rfl rfl rfl (by decide) (by decide),
   parse_forecast_response_spec.2 evalAlwaysFails exampleForecaster
      exampleContentResponse "x" rfl rfl
      (fun v h => by
        rw [show try_to_find_and_eval_dict evalAlwaysFails
            (trim_beginning_of_string (String.toList "x") answerDictionaryDelimiter)
          = Except.error PyErr.invalidFormat from rfl] at h
        exact Except.noConfusion h)⟩

end MetaculusBot
